import Mathlib

/-!
# Verification of the `kalman` crate's local-level and local-linear-trend filters

Shallow embedding of `src/kalman.rs` and `src/errors.rs`.

Floating-point values are modelled by the type `F`: an idealized binary64 in
which finite values are exact rationals and the IEEE special values
(`inf`, `neginf`, `nan`) are explicit constructors.  Arithmetic on finite
values is exact (no rounding, no overflow); the special values propagate by
the IEEE rules.  Comparisons between `nan` and anything are false, as in IEEE.
Signed zero is not distinguished (it is irrelevant to every branch the code
takes: all comparisons against `0.0` in the source treat `-0.0` like `0.0`).
-/

namespace Kalman

/-- Idealized binary64 value: exact rational for finite values, plus the IEEE
special values.  Rounding and overflow are not modelled. -/
inductive F where
  | fin (val : ℚ)
  | inf
  | neginf
  | nan
deriving DecidableEq

namespace F

/-- Rust `f64::is_finite`. -/
def isFinite : F → Bool
  | fin _ => true
  | _ => false

/-- IEEE negation. -/
def neg : F → F
  | fin a => fin (-a)
  | inf => neginf
  | neginf => inf
  | nan => nan

/-- IEEE addition (exact on finite values). -/
def add : F → F → F
  | nan, _ => nan
  | _, nan => nan
  | inf, neginf => nan
  | neginf, inf => nan
  | inf, _ => inf
  | _, inf => inf
  | neginf, _ => neginf
  | _, neginf => neginf
  | fin a, fin b => fin (a + b)

/-- IEEE multiplication (exact on finite values); `0 * inf = nan`. -/
def mul : F → F → F
  | nan, _ => nan
  | _, nan => nan
  | fin a, fin b => fin (a * b)
  | fin a, inf => if 0 < a then inf else if a < 0 then neginf else nan
  | fin a, neginf => if 0 < a then neginf else if a < 0 then inf else nan
  | inf, fin b => if 0 < b then inf else if b < 0 then neginf else nan
  | neginf, fin b => if 0 < b then neginf else if b < 0 then inf else nan
  | inf, inf => inf
  | inf, neginf => neginf
  | neginf, inf => neginf
  | neginf, neginf => inf

/-- IEEE division (exact on finite values); division of a nonzero finite value
by zero gives a signed infinity, `0/0 = nan`, `inf/inf = nan`. -/
def div : F → F → F
  | nan, _ => nan
  | _, nan => nan
  | fin a, fin b =>
    if b = 0 then (if 0 < a then inf else if a < 0 then neginf else nan)
    else fin (a / b)
  | fin _, inf => fin 0
  | fin _, neginf => fin 0
  | inf, fin b => if b < 0 then neginf else inf
  | neginf, fin b => if b < 0 then inf else neginf
  | inf, _ => nan
  | neginf, _ => nan

instance : Neg F := ⟨neg⟩
instance : Add F := ⟨add⟩
instance : Mul F := ⟨mul⟩
instance : Div F := ⟨div⟩

/-- IEEE subtraction, `x - y = x + (-y)` (exact on finite values). -/
def sub (x y : F) : F := x + (-y)

instance : Sub F := ⟨sub⟩

/-- Rust `f64::abs`. -/
def abs : F → F
  | fin a => fin |a|
  | inf => inf
  | neginf => inf
  | nan => nan

/-- IEEE `<` as a Bool: false whenever `nan` is involved. -/
def blt : F → F → Bool
  | nan, _ => false
  | _, nan => false
  | fin a, fin b => decide (a < b)
  | fin _, inf => true
  | fin _, neginf => false
  | inf, _ => false
  | neginf, neginf => false
  | neginf, _ => true

/-- IEEE `<=` as a Bool: false whenever `nan` is involved. -/
def ble : F → F → Bool
  | nan, _ => false
  | _, nan => false
  | fin a, fin b => decide (a ≤ b)
  | fin _, inf => true
  | fin _, neginf => false
  | inf, inf => true
  | inf, _ => false
  | neginf, _ => true

/-- IEEE `>` as a Bool. -/
def bgt (x y : F) : Bool := blt y x

/-- IEEE `>=` as a Bool. -/
def bge (x y : F) : Bool := ble y x

end F

/-- The error type of `src/errors.rs` (`MathError`), with the same variants
and payloads; `f64` payloads become `F`. -/
inductive MathError where
  | InsufficientDataAlgo (required : Nat) (actual : Nat)
  | InvalidParameter (parameter : String) (value : F) (constraint : String)
  | InvalidData (msg : String)
  | NumericalError (reason : String) (operation : Option String)
  | NumericalInstability (msg : String)
  | CalculationError (msg : String)
deriving DecidableEq

/-- `MathResult<T>` from the source. -/
abbrev MathResult (α : Type) := Except MathError α

instance {ε α : Type} [DecidableEq ε] [DecidableEq α] : DecidableEq (Except ε α) :=
  fun x y =>
    match x, y with
    | .error a, .error b =>
      if h : a = b then .isTrue (by rw [h])
      else .isFalse (by intro hh; cases hh; exact h rfl)
    | .error _, .ok _ => .isFalse (by intro hh; cases hh)
    | .ok _, .error _ => .isFalse (by intro hh; cases hh)
    | .ok a, .ok b =>
      if h : a = b then .isTrue (by rw [h])
      else .isFalse (by intro hh; cases hh; exact h rfl)

/-- `TINY_NEG_CLAMP` constant, `1e-15`. -/
def TINY_NEG_CLAMP : F := F.fin (1 / 10 ^ 15)

/-- `clamp_small_negative` from `src/kalman.rs` lines 31-42, translated
branch for branch. -/
def clamp_small_negative (x : F) : MathResult F :=
  if x.isFinite && x.bge (F.fin 0) then
    .ok x
  else if x.isFinite && x.blt (F.fin 0) && x.abs.ble TINY_NEG_CLAMP then
    .ok (F.fin 0)
  else
    .error (MathError.NumericalInstability "kalman: covariance became negative")

/-- `validate_variance` from `src/kalman.rs` lines 44-68. -/
def validate_variance (name : String) (v : F) (allow_zero : Bool) : MathResult Unit :=
  if !v.isFinite then
    .error (MathError.InvalidParameter name v "must be finite")
  else if allow_zero then
    if v.blt (F.fin 0) then
      .error (MathError.InvalidParameter name v "must be >= 0")
    else
      .ok ()
  else if v.ble (F.fin 0) then
    .error (MathError.InvalidParameter name v "must be > 0")
  else
    .ok ()

/-- `validate_series` from `src/kalman.rs` lines 70-90. -/
def validate_series (y out_mean out_var : List F) : MathResult Unit :=
  if y.isEmpty then
    .error (MathError.InsufficientDataAlgo 1 0)
  else if y.any (fun v => !v.isFinite) then
    .error (MathError.InvalidData "kalman: all observations must be finite")
  else if out_mean.length ≠ y.length ∨ out_var.length ≠ y.length then
    .error (MathError.InvalidParameter "out" (F.fin 0)
      "out_mean and out_var must match y length")
  else
    .ok ()

/-! ## Local-level filter (`kalman_local_level_filter_into`, lines 100-154) -/

/-- The body of one `kalman_local_level_filter_into` loop iteration from the
gain computation on (lines 135-148): everything after the innovation-variance
check has passed.  Takes the predicted variance `p_pred` and the innovation
variance `s` and returns the updated `(x, p)`. -/
def llGainUpdate (r x p_pred s obs : F) : MathResult (F × F) :=
  let k := p_pred / s
  let innov := obs - x
  let x2 := x + k * innov
  if !x2.isFinite then
    .error (MathError.NumericalError "kalman: non-finite updated mean"
      (some "kalman_local_level_filter_into"))
  else
    let one_minus_k := F.fin 1 - k
    let p_upd := (one_minus_k * one_minus_k) * p_pred + (k * k) * r
    match clamp_small_negative p_upd with
    | .error e => .error e
    | .ok p2 => .ok (x2, p2)

/-- One full iteration of the `kalman_local_level_filter_into` loop
(lines 124-151, without the buffer writes): predict, innovation-variance
check, then `llGainUpdate`. -/
def llStep (r q x p obs : F) : MathResult (F × F) :=
  match clamp_small_negative (p + q) with
  | .error e => .error e
  | .ok p_pred =>
    let s := p_pred + r
    if !(s.isFinite && s.bgt (F.fin 0)) then
      .error (MathError.NumericalInstability "kalman: invalid innovation variance")
    else
      llGainUpdate r x p_pred s obs

/-- Write the values `vs` into the list `b` at consecutive positions
`t, t+1, ...` (via `List.set`, so out-of-range writes are dropped, exactly
like they cannot occur in the validated Rust code). -/
def writeSeq (b : List F) (t : Nat) : List F → List F
  | [] => b
  | v :: vs => writeSeq (b.set t v) (t + 1) vs

/-- The `for (t, &obs) in y.iter().enumerate()` loop of
`kalman_local_level_filter_into` (lines 124-152), with the in-place buffer
writes `out_mean[t] = x; out_var[t] = p` made explicit: returns the final
buffer contents together with the result value. -/
def llLoop (r q : F) : List F → Nat → F → F → List F → List F →
    (List F × List F) × MathResult Unit
  | [], _, _, _, om, ov => ((om, ov), .ok ())
  | obs :: rest, t, x, p, om, ov =>
    match llStep r q x p obs with
    | .error e => ((om, ov), .error e)
    | .ok (x2, p2) => llLoop r q rest (t + 1) x2 p2 (om.set t x2) (ov.set t p2)

/-- The validation prefix of `kalman_local_level_filter_into`
(lines 109-119): `validate_series`, the `init_mean` finiteness check, and the
three `validate_variance` calls, in source order. -/
def ll_validate (y : List F) (r q init_mean init_var : F)
    (out_mean out_var : List F) : MathResult Unit :=
  match validate_series y out_mean out_var with
  | .error e => .error e
  | .ok _ =>
    if !init_mean.isFinite then
      .error (MathError.InvalidParameter "init_mean" init_mean "must be finite")
    else
      match validate_variance "r" r false with
      | .error e => .error e
      | .ok _ =>
        match validate_variance "q" q true with
        | .error e => .error e
        | .ok _ => validate_variance "init_var" init_var true

/-- `kalman_local_level_filter_into` (lines 100-154).  The in-place mutation
of the caller's two buffers is modelled by passing their contents in and
returning the (possibly unchanged) contents alongside the `MathResult`. -/
def kalman_local_level_filter_into (y : List F) (r q init_mean init_var : F)
    (out_mean out_var : List F) : (List F × List F) × MathResult Unit :=
  match ll_validate y r q init_mean init_var out_mean out_var with
  | .error e => ((out_mean, out_var), .error e)
  | .ok _ => llLoop r q y 0 init_mean init_var out_mean out_var

/-- `kalman_local_level_filter` (lines 156-167): allocates two zero-filled
vectors of length `y.len()`, delegates to the in-place filter, and returns
the vectors on success. -/
def kalman_local_level_filter (y : List F) (r q init_mean init_var : F) :
    MathResult (List F × List F) :=
  let n := y.length
  let res := kalman_local_level_filter_into y r q init_mean init_var
    (List.replicate n (F.fin 0)) (List.replicate n (F.fin 0))
  match res.2 with
  | .error e => .error e
  | .ok _ => .ok res.1

/-- Reference run of the local-level recursion: the same per-step computation
as `llLoop`, but collecting the written values into fresh lists instead of
writing into buffers.  On error the lists hold exactly the values written
before the failing step. -/
def llRun (r q : F) : F → F → List F → (List F × List F) × MathResult Unit
  | _, _, [] => (([], []), .ok ())
  | x, p, obs :: rest =>
    match llStep r q x p obs with
    | .error e => (([], []), .error e)
    | .ok (x2, p2) =>
      let tail := llRun r q x2 p2 rest
      ((x2 :: tail.1.1, p2 :: tail.1.2), tail.2)

/-- The local-level recursion exactly as the specification states it
(spec section 4.3 / claim C1): `p_pred = clamp(p + q)`, `s = p_pred + r`,
`k = p_pred / s`, `innov = y[t] - x`, `x2 = x + k*innov`,
`p2 = clamp((1-k)^2 * p_pred + k^2 * r)`, with `(x2, p2)` emitted at step `t`
and carried to step `t+1`.  Written from the claim's words, to be compared
with the source translation. -/
def specLLFilter (r q : F) : F → F → List F → MathResult (List F × List F)
  | _, _, [] => .ok ([], [])
  | x, p, obs :: rest =>
    match clamp_small_negative (p + q) with
    | .error e => .error e
    | .ok p_pred =>
      let s := p_pred + r
      let k := p_pred / s
      let innov := obs - x
      let x2 := x + k * innov
      match clamp_small_negative
          (((F.fin 1 - k) * (F.fin 1 - k)) * p_pred + (k * k) * r) with
      | .error e => .error e
      | .ok p2 =>
        match specLLFilter r q x2 p2 rest with
        | .error e => .error e
        | .ok (ms, vs) => .ok (x2 :: ms, p2 :: vs)

/-! ## Local-linear-trend filter (`kalman_local_linear_trend_filter_into`,
lines 181-344) -/

/-- The five mutable locals of the trend engine: state mean `(level, trend)`
and symmetric covariance `(p00, p01, p11)` with `p10 == p01`. -/
structure TrendState where
  level : F
  trend : F
  p00 : F
  p01 : F
  p11 : F
deriving DecidableEq

/-- The body of one trend-filter iteration from the gain computation on
(lines 274-336): everything after the innovation-variance check has passed. -/
def lltGainUpdate (r level_pred trend_pred p00_pred p01_pred p11_pred s obs : F) :
    MathResult TrendState :=
  let k0 := p00_pred / s
  let k1 := p01_pred / s
  if !(k0.isFinite && k1.isFinite) then
    .error (MathError.NumericalError "kalman: non-finite gain"
      (some "kalman_local_linear_trend_filter_into"))
  else
    let innov := obs - level_pred
    if !innov.isFinite then
      .error (MathError.NumericalError "kalman: non-finite innovation"
        (some "kalman_local_linear_trend_filter_into"))
    else
      let level2 := level_pred + k0 * innov
      let trend2 := trend_pred + k1 * innov
      if !(level2.isFinite && trend2.isFinite) then
        .error (MathError.NumericalError "kalman: non-finite updated state"
          (some "kalman_local_linear_trend_filter_into"))
      else
        let one_minus_k0 := F.fin 1 - k0
        let a00 := one_minus_k0 * p00_pred
        let a01 := one_minus_k0 * p01_pred
        let a10 := (-k1) * p00_pred + p01_pred
        let a11 := (-k1) * p01_pred + p11_pred
        let p00_new := a00 * one_minus_k0 + (k0 * k0) * r
        let p01_new := a00 * (-k1) + a01 + (k0 * k1) * r
        let p11_new := a10 * (-k1) + a11 + (k1 * k1) * r
        if !(p00_new.isFinite && p01_new.isFinite && p11_new.isFinite) then
          .error (MathError.NumericalError "kalman: non-finite updated covariance"
            (some "kalman_local_linear_trend_filter_into"))
        else
          match clamp_small_negative p00_new with
          | .error e => .error e
          | .ok p00b =>
            match clamp_small_negative p11_new with
            | .error e => .error e
            | .ok p11b => .ok ⟨level2, trend2, p00b, p01_new, p11b⟩

/-- One full iteration of the trend-filter loop (lines 243-341, without the
buffer writes): state/covariance prediction, the off-diagonal finiteness
check, the innovation-variance check, then `lltGainUpdate`. -/
def lltStep (r q_level q_trend : F) (st : TrendState) (obs : F) :
    MathResult TrendState :=
  let level_pred := st.level + st.trend
  let trend_pred := st.trend
  match clamp_small_negative (st.p00 + F.fin 2 * st.p01 + st.p11 + q_level) with
  | .error e => .error e
  | .ok p00_pred =>
    let p01_pred := st.p01 + st.p11
    match clamp_small_negative (st.p11 + q_trend) with
    | .error e => .error e
    | .ok p11_pred =>
      if !p01_pred.isFinite then
        .error (MathError.NumericalError "kalman: non-finite predicted covariance"
          (some "kalman_local_linear_trend_filter_into"))
      else
        let s := p00_pred + r
        if !(s.isFinite && s.bgt (F.fin 0)) then
          .error (MathError.NumericalInstability "kalman: invalid innovation variance")
        else
          lltGainUpdate r level_pred trend_pred p00_pred p01_pred p11_pred s obs

/-- The trend-filter loop (lines 243-342) with the four in-place buffer
writes made explicit. -/
def lltLoop (r q_level q_trend : F) : List F → Nat → TrendState →
    List F → List F → List F → List F →
    (List F × List F × List F × List F) × MathResult Unit
  | [], _, _, bl, bt, bvl, bvt => ((bl, bt, bvl, bvt), .ok ())
  | obs :: rest, t, st, bl, bt, bvl, bvt =>
    match lltStep r q_level q_trend st obs with
    | .error e => ((bl, bt, bvl, bvt), .error e)
    | .ok st2 =>
      lltLoop r q_level q_trend rest (t + 1) st2 (bl.set t st2.level)
        (bt.set t st2.trend) (bvl.set t st2.p00) (bvt.set t st2.p11)

/-- The validation prefix of `kalman_local_linear_trend_filter_into`
(lines 195-231), translated check for check in source order. -/
def llt_validate (y : List F) (r q_level q_trend init_level init_trend
    init_var_level init_var_trend : F)
    (out_level out_trend out_var_level out_var_trend : List F) : MathResult Unit :=
  if y.isEmpty then
    .error (MathError.InsufficientDataAlgo 1 0)
  else if y.any (fun v => !v.isFinite) then
    .error (MathError.InvalidData "kalman: all observations must be finite")
  else if out_level.length ≠ y.length ∨ out_trend.length ≠ y.length ∨
      out_var_level.length ≠ y.length ∨ out_var_trend.length ≠ y.length then
    .error (MathError.InvalidParameter "out" (F.fin 0)
      "all output slices must match y length")
  else if !init_level.isFinite || !init_trend.isFinite then
    .error (MathError.InvalidParameter "init_state" (F.fin 0)
      "init_level and init_trend must be finite")
  else
    match validate_variance "r" r false with
    | .error e => .error e
    | .ok _ =>
      match validate_variance "q_level" q_level true with
      | .error e => .error e
      | .ok _ =>
        match validate_variance "q_trend" q_trend true with
        | .error e => .error e
        | .ok _ =>
          match validate_variance "init_var_level" init_var_level true with
          | .error e => .error e
          | .ok _ => validate_variance "init_var_trend" init_var_trend true

/-- `kalman_local_linear_trend_filter_into` (lines 181-344).  The initial
covariance is `p00 = init_var_level`, `p01 = 0.0`, `p11 = init_var_trend`
(lines 239-241). -/
def kalman_local_linear_trend_filter_into (y : List F)
    (r q_level q_trend init_level init_trend init_var_level init_var_trend : F)
    (out_level out_trend out_var_level out_var_trend : List F) :
    (List F × List F × List F × List F) × MathResult Unit :=
  match llt_validate y r q_level q_trend init_level init_trend init_var_level
      init_var_trend out_level out_trend out_var_level out_var_trend with
  | .error e => ((out_level, out_trend, out_var_level, out_var_trend), .error e)
  | .ok _ =>
    lltLoop r q_level q_trend y 0
      ⟨init_level, init_trend, init_var_level, F.fin 0, init_var_trend⟩
      out_level out_trend out_var_level out_var_trend

/-- `kalman_local_linear_trend_filter` (lines 346-376): allocates four
zero-filled vectors, delegates, and returns them on success. -/
def kalman_local_linear_trend_filter (y : List F)
    (r q_level q_trend init_level init_trend init_var_level init_var_trend : F) :
    MathResult (List F × List F × List F × List F) :=
  let n := y.length
  let res := kalman_local_linear_trend_filter_into y r q_level q_trend init_level
    init_trend init_var_level init_var_trend (List.replicate n (F.fin 0))
    (List.replicate n (F.fin 0)) (List.replicate n (F.fin 0))
    (List.replicate n (F.fin 0))
  match res.2 with
  | .error e => .error e
  | .ok _ => .ok res.1

/-- Reference run of the trend recursion: the same per-step computation as
`lltLoop`, collecting the written values into fresh lists. -/
def lltRun (r q_level q_trend : F) : TrendState → List F →
    (List F × List F × List F × List F) × MathResult Unit
  | _, [] => (([], [], [], []), .ok ())
  | st, obs :: rest =>
    match lltStep r q_level q_trend st obs with
    | .error e => (([], [], [], []), .error e)
    | .ok st2 =>
      let tail := lltRun r q_level q_trend st2 rest
      ((st2.level :: tail.1.1, st2.trend :: tail.1.2.1,
        st2.p00 :: tail.1.2.2.1, st2.p11 :: tail.1.2.2.2), tail.2)

/-- The trend covariance update exactly as the specification states it
(spec section 4.4 step 7 / claim C2), with the spec's unary minus read as
negation of the following product: `a00 = (1-k0)*p00_pred`,
`a01 = (1-k0)*p01_pred`, `a10 = -(k1*p00_pred) + p01_pred`,
`a11 = -(k1*p01_pred) + p11_pred`; `p00_new = a00*(1-k0) + k0^2*r`,
`p01_new = -(a00*k1) + a01 + k0*k1*r`, `p11_new = -(a10*k1) + a11 + k1^2*r`.
Written from the claim's words, to be compared with the source translation. -/
def specCovUpdate (r k0 k1 p00_pred p01_pred p11_pred : F) : F × F × F :=
  let a00 := (F.fin 1 - k0) * p00_pred
  let a01 := (F.fin 1 - k0) * p01_pred
  let a10 := -(k1 * p00_pred) + p01_pred
  let a11 := -(k1 * p01_pred) + p11_pred
  (a00 * (F.fin 1 - k0) + (k0 * k0) * r,
   -(a00 * k1) + a01 + (k0 * k1) * r,
   -(a10 * k1) + a11 + (k1 * k1) * r)

/-! ## Helper lemmas -/

theorem F.add_def (x y : F) : x + y = F.add x y := rfl

theorem F.mul_def (x y : F) : x * y = F.mul x y := rfl

theorem F.div_def (x y : F) : x / y = F.div x y := rfl

theorem F.sub_def (x y : F) : x - y = x + (-y) := rfl

theorem F.neg_def (x : F) : -x = F.neg x := rfl

theorem writeSeq_length (vs : List F) : ∀ (b : List F) (t : Nat),
    (writeSeq b t vs).length = b.length := by
  induction vs with
  | nil => intro b t; rfl
  | cons v vs ih =>
    intro b t
    rw [writeSeq, ih]
    simp

theorem writeSeq_getElem? (vs : List F) : ∀ (b : List F) (t i : Nat),
    (writeSeq b t vs)[i]? =
      if t ≤ i ∧ i - t < vs.length ∧ i < b.length then vs[i - t]? else b[i]? := by
  induction vs with
  | nil =>
    intro b t i
    simp [writeSeq]
  | cons v vs ih =>
    intro b t i
    rw [writeSeq, ih]
    simp only [List.length_set, List.length_cons, List.getElem?_set]
    rcases Nat.lt_trichotomy t i with hlt | heq | hgt
    · have h1 : t + 1 ≤ i := hlt
      have h2 : ¬ t = i := Nat.ne_of_lt hlt
      obtain ⟨j, hj⟩ : ∃ j, i - t = j + 1 := ⟨i - t - 1, by omega⟩
      have hj2 : i - (t + 1) = j := by omega
      by_cases hcase : i - (t + 1) < vs.length ∧ i < b.length
      · rw [if_pos ⟨h1, hcase⟩, if_pos ⟨Nat.le_of_lt hlt, by omega, hcase.2⟩, hj, hj2]
        simp
      · rw [if_neg (by tauto), if_neg h2]
        rw [if_neg (by omega)]
    · subst heq
      rw [if_neg (by omega), if_pos rfl]
      by_cases hlen : t < b.length
      · rw [if_pos hlen, if_pos ⟨Nat.le_refl t, by omega, hlen⟩]
        simp
      · rw [if_neg hlen, if_neg (by omega)]
        rw [List.getElem?_eq_none (by omega)]
    · rw [if_neg (by omega), if_neg (by omega), if_neg (by omega)]

theorem writeSeq_zero_eq (vs b : List F) (h : vs.length = b.length) :
    writeSeq b 0 vs = vs := by
  apply List.ext_getElem?
  intro i
  rw [writeSeq_getElem?]
  by_cases hi : i < vs.length
  · rw [if_pos ⟨Nat.zero_le i, by omega, by omega⟩]
    simp
  · rw [if_neg (by omega), List.getElem?_eq_none (by omega),
      List.getElem?_eq_none (by omega)]

/-- `llLoop` is `llRun` plus consecutive buffer writes. -/
theorem llLoop_eq_run (r q : F) : ∀ (ys : List F) (t : Nat) (x p : F)
    (om ov : List F),
    llLoop r q ys t x p om ov =
      ((writeSeq om t (llRun r q x p ys).1.1, writeSeq ov t (llRun r q x p ys).1.2),
        (llRun r q x p ys).2) := by
  intro ys
  induction ys with
  | nil => intro t x p om ov; rfl
  | cons obs rest ih =>
    intro t x p om ov
    rw [llLoop, llRun]
    cases hstep : llStep r q x p obs with
    | error e => rfl
    | ok xp =>
      obtain ⟨x2, p2⟩ := xp
      dsimp only
      rw [ih]
      rfl

/-- Bookkeeping facts about `llRun`: the two collected lists have the same
length, at most one entry per observation, and the run succeeds exactly when
every observation produced an entry. -/
theorem llRun_lengths (r q : F) : ∀ (ys : List F) (x p : F),
    (llRun r q x p ys).1.1.length = (llRun r q x p ys).1.2.length ∧
    (llRun r q x p ys).1.1.length ≤ ys.length ∧
    ((llRun r q x p ys).2 = .ok () ↔ (llRun r q x p ys).1.1.length = ys.length) := by
  intro ys
  induction ys with
  | nil => intro x p; simp [llRun]
  | cons obs rest ih =>
    intro x p
    rw [llRun]
    cases hstep : llStep r q x p obs with
    | error e => simp
    | ok xp =>
      obtain ⟨x2, p2⟩ := xp
      obtain ⟨h1, h2, h3⟩ := ih x2 p2
      simp only [List.length_cons]
      refine ⟨by rw [h1], by omega, ?_⟩
      rw [h3]
      omega

/-- Inversion of a successful `llStep`: the clamps succeeded and the returned
values are exactly the recursion's formulas. -/
theorem llStep_ok_inv {r q x p obs x2 p2 : F}
    (h : llStep r q x p obs = .ok (x2, p2)) :
    ∃ p_pred, clamp_small_negative (p + q) = .ok p_pred ∧
      x2 = x + p_pred / (p_pred + r) * (obs - x) ∧
      clamp_small_negative
        ((F.fin 1 - p_pred / (p_pred + r)) * (F.fin 1 - p_pred / (p_pred + r)) * p_pred
          + p_pred / (p_pred + r) * (p_pred / (p_pred + r)) * r) = .ok p2 := by
  rw [llStep] at h
  cases hclamp : clamp_small_negative (p + q) with
  | error e => rw [hclamp] at h; exact absurd h (by simp)
  | ok p_pred =>
    rw [hclamp] at h
    simp only [llGainUpdate] at h
    split at h
    · simp at h
    · split at h
      · simp at h
      · split at h
        · simp at h
        · rename_i p2b heq
          simp only [Except.ok.injEq, Prod.mk.injEq] at h
          exact ⟨p_pred, rfl, h.1.symm, by rw [heq, h.2]⟩

/-- On the prefix of observations it actually consumed, `llRun` agrees with
the specification's recursion `specLLFilter`. -/
theorem llRun_take_spec (r q : F) : ∀ (ys : List F) (x p : F),
    specLLFilter r q x p (ys.take (llRun r q x p ys).1.1.length) =
      .ok ((llRun r q x p ys).1.1, (llRun r q x p ys).1.2) := by
  intro ys
  induction ys with
  | nil => intro x p; rfl
  | cons obs rest ih =>
    intro x p
    rw [llRun]
    cases hstep : llStep r q x p obs with
    | error e => rfl
    | ok xp =>
      obtain ⟨x2, p2⟩ := xp
      obtain ⟨p_pred, hclamp, hx2, hclamp2⟩ := llStep_ok_inv hstep
      simp only [List.length_cons, List.take_succ_cons, specLLFilter, hclamp]
      rw [← hx2, hclamp2]
      dsimp only
      rw [ih x2 p2]

/-- Full characterization of `validate_series`. -/
theorem validate_series_ok_iff (y om ov : List F) :
    validate_series y om ov = .ok () ↔
      y ≠ [] ∧ (∀ v ∈ y, v.isFinite = true) ∧
      om.length = y.length ∧ ov.length = y.length := by
  rw [validate_series]
  split_ifs with h1 h2 h3
  · simp only [List.isEmpty_iff] at h1
    simp [h1]
  · simp only [List.any_eq_true, Bool.not_eq_eq_eq_not, Bool.not_true] at h2
    obtain ⟨v, hv, hfin⟩ := h2
    constructor
    · intro habs; exact absurd habs (by simp)
    · rintro ⟨-, hall, -, -⟩
      rw [hall v hv] at hfin
      exact absurd hfin (by simp)
  · constructor
    · intro habs; exact absurd habs (by simp)
    · rintro ⟨-, -, hm, hv⟩
      rcases h3 with h3 | h3
      · exact absurd hm h3
      · exact absurd hv h3
  · simp only [List.isEmpty_iff] at h1
    simp only [List.any_eq_true, Bool.not_eq_eq_eq_not, Bool.not_true, not_exists,
      not_and] at h2
    push_neg at h3
    refine iff_of_true rfl ⟨h1, ?_, h3.1, h3.2⟩
    intro v hv
    have := h2 v hv
    revert this
    cases v.isFinite <;> simp

/-- A successful `ll_validate` forces both buffers to have the length of the
observation list. -/
theorem ll_validate_ok_lengths {y : List F} {r q init_mean init_var : F}
    {om ov : List F}
    (h : ll_validate y r q init_mean init_var om ov = .ok ()) :
    om.length = y.length ∧ ov.length = y.length := by
  rw [ll_validate] at h
  cases hs : validate_series y om ov with
  | error e => rw [hs] at h; simp at h
  | ok u =>
    obtain ⟨-, -, h1, h2⟩ := (validate_series_ok_iff y om ov).mp (by rw [hs])
    exact ⟨h1, h2⟩

/-! ## Claim theorems -/

/-- C1: for every observation sequence and parameters that pass validation,
if the in-place local-level filter returns success then the output buffers
hold exactly the sequences produced by the specification's recursion
(`specLLFilter`) started from `(init_mean, init_var)`. -/
theorem C1_local_level_filter_matches_spec_recursion
    (y : List F) (r q init_mean init_var : F) (om ov : List F)
    (h : (kalman_local_level_filter_into y r q init_mean init_var om ov).2 = .ok ()) :
    specLLFilter r q init_mean init_var y =
      .ok ((kalman_local_level_filter_into y r q init_mean init_var om ov).1.1,
           (kalman_local_level_filter_into y r q init_mean init_var om ov).1.2) := by
  rw [kalman_local_level_filter_into] at h ⊢
  cases hv : ll_validate y r q init_mean init_var om ov with
  | error e => rw [hv] at h; simp at h
  | ok u =>
    rw [hv] at h
    dsimp only at h ⊢
    rw [llLoop_eq_run] at h ⊢
    dsimp only at h ⊢
    obtain ⟨hlen12, hle, hiff⟩ := llRun_lengths r q y init_mean init_var
    have hfull : (llRun r q init_mean init_var y).1.1.length = y.length := hiff.mp h
    obtain ⟨hom, hov⟩ := ll_validate_ok_lengths hv
    have hspec := llRun_take_spec r q y init_mean init_var
    rw [hfull, List.take_length] at hspec
    rw [writeSeq_zero_eq _ _ (by omega), writeSeq_zero_eq _ _ (by omega)]
    exact hspec

/-- C1 witness: a concrete successful call, with the theorem's hypothesis
discharged by evaluation. -/
theorem C1_local_level_filter_matches_spec_recursion_witness :
    specLLFilter (F.fin 1) (F.fin 0) (F.fin 0) (F.fin 1) [F.fin 1] =
      .ok ((kalman_local_level_filter_into [F.fin 1] (F.fin 1) (F.fin 0) (F.fin 0)
              (F.fin 1) [F.fin 0] [F.fin 0]).1.1,
           (kalman_local_level_filter_into [F.fin 1] (F.fin 1) (F.fin 0) (F.fin 0)
              (F.fin 1) [F.fin 0] [F.fin 0]).1.2) :=
  C1_local_level_filter_matches_spec_recursion [F.fin 1] (F.fin 1) (F.fin 0)
    (F.fin 0) (F.fin 1) [F.fin 0] [F.fin 0] (by
      norm_num [kalman_local_level_filter_into, ll_validate, validate_series,
        validate_variance, llLoop, llStep, llGainUpdate, clamp_small_negative,
        F.add_def, F.mul_def, F.div_def, F.sub_def, F.neg_def, F.add, F.mul,
        F.div, F.sub, F.neg, F.isFinite, F.bge, F.ble, F.bgt, F.blt, F.abs,
        TINY_NEG_CLAMP])

/-- C5: in both engines, once the covariance prediction has succeeded, the
step fails with `NumericalInstability` exactly when the innovation variance
`s = p_pred + r` (resp. `s = p00_pred + r`) is not both finite and strictly
positive, and otherwise continues with the gain computation
(`llGainUpdate` / `lltGainUpdate`). -/
theorem C5_innovation_variance_guard
    (r q x p obs p_pred q_level q_trend obs2 p00_pred p11_pred : F)
    (st : TrendState)
    (h1 : clamp_small_negative (p + q) = .ok p_pred)
    (h2 : clamp_small_negative (st.p00 + F.fin 2 * st.p01 + st.p11 + q_level)
      = .ok p00_pred)
    (h3 : clamp_small_negative (st.p11 + q_trend) = .ok p11_pred)
    (h4 : (st.p01 + st.p11).isFinite = true) :
    (llStep r q x p obs =
      if ((p_pred + r).isFinite && (p_pred + r).bgt (F.fin 0)) = true then
        llGainUpdate r x p_pred (p_pred + r) obs
      else
        .error (MathError.NumericalInstability "kalman: invalid innovation variance")) ∧
    (lltStep r q_level q_trend st obs2 =
      if ((p00_pred + r).isFinite && (p00_pred + r).bgt (F.fin 0)) = true then
        lltGainUpdate r (st.level + st.trend) st.trend p00_pred (st.p01 + st.p11)
          p11_pred (p00_pred + r) obs2
      else
        .error (MathError.NumericalInstability "kalman: invalid innovation variance")) := by
  constructor
  · rw [llStep, h1]
    cases hc : ((p_pred + r).isFinite && (p_pred + r).bgt (F.fin 0)) <;> simp [hc]
  · rw [lltStep, h2, h3]
    dsimp only
    rw [h4]
    cases hc : ((p00_pred + r).isFinite && (p00_pred + r).bgt (F.fin 0)) <;> simp [hc]

/-- C5 witness: both hypotheses discharged at a concrete state where the
guard passes. -/
theorem C5_innovation_variance_guard_witness :
    (llStep (F.fin 1) (F.fin 0) (F.fin 0) (F.fin 0) (F.fin 1) =
      if ((F.fin 0 + F.fin 1).isFinite && (F.fin 0 + F.fin 1).bgt (F.fin 0)) = true then
        llGainUpdate (F.fin 1) (F.fin 0) (F.fin 0) (F.fin 0 + F.fin 1) (F.fin 1)
      else
        .error (MathError.NumericalInstability "kalman: invalid innovation variance")) ∧
    (lltStep (F.fin 1) (F.fin 0) (F.fin 0) ⟨F.fin 0, F.fin 0, F.fin 1, F.fin 0, F.fin 1⟩
        (F.fin 1) =
      if ((F.fin 2 + F.fin 1).isFinite && (F.fin 2 + F.fin 1).bgt (F.fin 0)) = true then
        lltGainUpdate (F.fin 1) (F.fin 0 + F.fin 0) (F.fin 0) (F.fin 2)
          (F.fin 0 + F.fin 1) (F.fin 1) (F.fin 2 + F.fin 1) (F.fin 1)
      else
        .error (MathError.NumericalInstability "kalman: invalid innovation variance")) :=
  C5_innovation_variance_guard (F.fin 1) (F.fin 0) (F.fin 0) (F.fin 0) (F.fin 1)
    (F.fin 0) (F.fin 0) (F.fin 0) (F.fin 1) (F.fin 2) (F.fin 1)
    ⟨F.fin 0, F.fin 0, F.fin 1, F.fin 0, F.fin 1⟩
    (by
      norm_num [clamp_small_negative, F.add_def, F.add, F.isFinite, F.bge, F.ble])
    (by
      norm_num [clamp_small_negative, F.add_def, F.mul_def, F.add, F.mul,
        F.isFinite, F.bge, F.ble])
    (by
      norm_num [clamp_small_negative, F.add_def, F.add, F.isFinite, F.bge, F.ble])
    (by norm_num [F.add_def, F.add, F.isFinite])

/-- C3: the variance clamp returns `x` unchanged when `x` is finite and
`>= 0`; returns exactly `0` when `x` is finite, negative and `|x| <= 1e-15`;
and in every remaining case (negative beyond the tolerance, or one of the
three non-finite values) fails with the `NumericalInstability` error kind.
The six clauses cover all of `F`, so no other outcome is possible. -/
theorem C3_variance_clamp_characterization (a : ℚ) :
    (0 ≤ a → clamp_small_negative (F.fin a) = .ok (F.fin a)) ∧
    (a < 0 → |a| ≤ 1 / 10 ^ 15 → clamp_small_negative (F.fin a) = .ok (F.fin 0)) ∧
    (a < 0 → 1 / 10 ^ 15 < |a| →
      clamp_small_negative (F.fin a) =
        .error (MathError.NumericalInstability "kalman: covariance became negative")) ∧
    clamp_small_negative F.inf =
      .error (MathError.NumericalInstability "kalman: covariance became negative") ∧
    clamp_small_negative F.neginf =
      .error (MathError.NumericalInstability "kalman: covariance became negative") ∧
    clamp_small_negative F.nan =
      .error (MathError.NumericalInstability "kalman: covariance became negative") := by
  refine ⟨?_, ?_, ?_, ?_, ?_, ?_⟩
  · intro h
    simp [clamp_small_negative, F.isFinite, F.bge, F.ble, h]
  · intro h1 h2
    simp only [one_div] at h2
    simp [clamp_small_negative, F.isFinite, F.bge, F.ble, F.blt, F.abs,
      TINY_NEG_CLAMP, not_le.mpr h1, h1, h2]
  · intro h1 h2
    simp only [one_div] at h2
    simp [clamp_small_negative, F.isFinite, F.bge, F.ble, F.blt, F.abs,
      TINY_NEG_CLAMP, not_le.mpr h1, h1, not_le.mpr h2]
  · simp [clamp_small_negative, F.isFinite]
  · simp [clamp_small_negative, F.isFinite]
  · simp [clamp_small_negative, F.isFinite]

/-- C3 witness: the three conditional clauses instantiated at concrete
inputs (`3`, `-1e-16`, `-1`). -/
theorem C3_variance_clamp_characterization_witness :
    clamp_small_negative (F.fin 3) = .ok (F.fin 3) ∧
    clamp_small_negative (F.fin (-(1 / 10 ^ 16))) = .ok (F.fin 0) ∧
    clamp_small_negative (F.fin (-1)) =
      .error (MathError.NumericalInstability "kalman: covariance became negative") :=
  ⟨(C3_variance_clamp_characterization 3).1 (by norm_num),
   (C3_variance_clamp_characterization (-(1 / 10 ^ 16))).2.1 (by norm_num)
     (by rw [abs_of_nonpos (by norm_num)]; norm_num),
   (C3_variance_clamp_characterization (-1)).2.2.1 (by norm_num)
     (by rw [abs_of_nonpos (by norm_num)]; norm_num)⟩

/-- C8: both filters are deterministic — the embedding is a pure function of
its arguments (the Rust code reads no global or hidden state), so two calls
with identical inputs agree on the result value and on every output-buffer
element. -/
theorem C8_determinism (y : List F) (r q init_mean init_var : F) (om ov : List F)
    (y2 : List F) (r2 q_level q_trend init_level init_trend init_var_level
      init_var_trend : F) (bl bt bvl bvt : List F) :
    kalman_local_level_filter_into y r q init_mean init_var om ov =
      kalman_local_level_filter_into y r q init_mean init_var om ov ∧
    kalman_local_linear_trend_filter_into y2 r2 q_level q_trend init_level
        init_trend init_var_level init_var_trend bl bt bvl bvt =
      kalman_local_linear_trend_filter_into y2 r2 q_level q_trend init_level
        init_trend init_var_level init_var_trend bl bt bvl bvt :=
  ⟨rfl, rfl⟩

/-- C9: each allocating wrapper is observationally the in-place filter run on
fresh zero-filled buffers of the observation count's length: it returns `Ok`
with exactly those buffers' final contents when the in-place call succeeds,
and the identical error value when the in-place call fails. -/
theorem C9_allocating_wrappers_delegate (y : List F)
    (r q init_mean init_var q_level q_trend init_level init_trend
      init_var_level init_var_trend : F) :
    ((∀ out, kalman_local_level_filter y r q init_mean init_var = .ok out ↔
        ((kalman_local_level_filter_into y r q init_mean init_var
            (List.replicate y.length (F.fin 0))
            (List.replicate y.length (F.fin 0))).2 = .ok () ∧
          (kalman_local_level_filter_into y r q init_mean init_var
            (List.replicate y.length (F.fin 0))
            (List.replicate y.length (F.fin 0))).1 = out)) ∧
      (∀ e, kalman_local_level_filter y r q init_mean init_var = .error e ↔
        (kalman_local_level_filter_into y r q init_mean init_var
          (List.replicate y.length (F.fin 0))
          (List.replicate y.length (F.fin 0))).2 = .error e)) ∧
    ((∀ out, kalman_local_linear_trend_filter y r q_level q_trend init_level
          init_trend init_var_level init_var_trend = .ok out ↔
        ((kalman_local_linear_trend_filter_into y r q_level q_trend init_level
            init_trend init_var_level init_var_trend
            (List.replicate y.length (F.fin 0)) (List.replicate y.length (F.fin 0))
            (List.replicate y.length (F.fin 0))
            (List.replicate y.length (F.fin 0))).2 = .ok () ∧
          (kalman_local_linear_trend_filter_into y r q_level q_trend init_level
            init_trend init_var_level init_var_trend
            (List.replicate y.length (F.fin 0)) (List.replicate y.length (F.fin 0))
            (List.replicate y.length (F.fin 0))
            (List.replicate y.length (F.fin 0))).1 = out)) ∧
      (∀ e, kalman_local_linear_trend_filter y r q_level q_trend init_level
          init_trend init_var_level init_var_trend = .error e ↔
        (kalman_local_linear_trend_filter_into y r q_level q_trend init_level
          init_trend init_var_level init_var_trend
          (List.replicate y.length (F.fin 0)) (List.replicate y.length (F.fin 0))
          (List.replicate y.length (F.fin 0))
          (List.replicate y.length (F.fin 0))).2 = .error e)) := by
  constructor
  · rw [kalman_local_level_filter]
    cases h2 : (kalman_local_level_filter_into y r q init_mean init_var
        (List.replicate y.length (F.fin 0)) (List.replicate y.length (F.fin 0))).2 with
    | error e => simp [h2]
    | ok u => simp [h2, eq_comm]
  · rw [kalman_local_linear_trend_filter]
    cases h2 : (kalman_local_linear_trend_filter_into y r q_level q_trend
        init_level init_trend init_var_level init_var_trend
        (List.replicate y.length (F.fin 0)) (List.replicate y.length (F.fin 0))
        (List.replicate y.length (F.fin 0)) (List.replicate y.length (F.fin 0))).2 with
    | error e => simp [h2]
    | ok u => simp [h2, eq_comm]

/-- C10: after validation, the trend recursion starts from the diagonal
covariance `p00 = init_var_level`, `p01 = 0`, `p11 = init_var_trend` — no
input parameter feeds the initial cross-covariance, which is the literal
`0.0`. -/
theorem C10_trend_initial_cross_covariance_zero (y : List F)
    (r q_level q_trend init_level init_trend init_var_level init_var_trend : F)
    (bl bt bvl bvt : List F)
    (h : llt_validate y r q_level q_trend init_level init_trend init_var_level
      init_var_trend bl bt bvl bvt = .ok ()) :
    kalman_local_linear_trend_filter_into y r q_level q_trend init_level
        init_trend init_var_level init_var_trend bl bt bvl bvt =
      lltLoop r q_level q_trend y 0
        ⟨init_level, init_trend, init_var_level, F.fin 0, init_var_trend⟩
        bl bt bvl bvt := by
  rw [kalman_local_linear_trend_filter_into, h]

/-- C10 witness: a concrete validated call. -/
theorem C10_trend_initial_cross_covariance_zero_witness :
    kalman_local_linear_trend_filter_into [F.fin 1] (F.fin 1) (F.fin 0) (F.fin 0)
        (F.fin 0) (F.fin 0) (F.fin 1) (F.fin 1)
        [F.fin 0] [F.fin 0] [F.fin 0] [F.fin 0] =
      lltLoop (F.fin 1) (F.fin 0) (F.fin 0) [F.fin 1] 0
        ⟨F.fin 0, F.fin 0, F.fin 1, F.fin 0, F.fin 1⟩
        [F.fin 0] [F.fin 0] [F.fin 0] [F.fin 0] :=
  C10_trend_initial_cross_covariance_zero [F.fin 1] (F.fin 1) (F.fin 0) (F.fin 0)
    (F.fin 0) (F.fin 0) (F.fin 1) (F.fin 1) [F.fin 0] [F.fin 0] [F.fin 0] [F.fin 0]
    (by norm_num [llt_validate, validate_variance, F.isFinite, F.ble, F.blt])

/-- Multiplying by a negated value negates the product, also through the
IEEE special values. -/
theorem F.mul_neg_eq (x y : F) : x * (-y) = -(x * y) := by
  cases x <;> cases y <;>
    simp only [F.mul_def, F.neg_def, F.mul, F.neg]
  all_goals try (rw [mul_neg])
  all_goals split_ifs <;> first | rfl | (exfalso; linarith)

/-- Negating the left factor negates the product, also through the IEEE
special values. -/
theorem F.neg_mul_eq (x y : F) : (-x) * y = -(x * y) := by
  cases x <;> cases y <;>
    simp only [F.mul_def, F.neg_def, F.mul, F.neg]
  all_goals try (rw [neg_mul])
  all_goals split_ifs <;> first | rfl | (exfalso; linarith)

/-- Inversion of a successful `lltGainUpdate`: the returned covariance triple
is exactly `specCovUpdate` (the claim's scalar-unrolled Joseph form), with
`p00` and `p11` clamped and `p01` unclamped. -/
theorem lltGainUpdate_ok_cov {r level_pred trend_pred p00_pred p01_pred
    p11_pred s obs : F} {st2 : TrendState}
    (h : lltGainUpdate r level_pred trend_pred p00_pred p01_pred p11_pred s obs
      = .ok st2) :
    clamp_small_negative
        (specCovUpdate r (p00_pred / s) (p01_pred / s) p00_pred p01_pred p11_pred).1
      = .ok st2.p00 ∧
    st2.p01 =
      (specCovUpdate r (p00_pred / s) (p01_pred / s) p00_pred p01_pred p11_pred).2.1 ∧
    clamp_small_negative
        (specCovUpdate r (p00_pred / s) (p01_pred / s) p00_pred p01_pred p11_pred).2.2
      = .ok st2.p11 := by
  rw [lltGainUpdate] at h
  dsimp only at h
  split at h
  · simp at h
  · split at h
    · simp at h
    · split at h
      · simp at h
      · split at h
        · simp at h
        · split at h
          · simp at h
          · rename_i p00b hc00
            split at h
            · simp at h
            · rename_i p11b hc11
              simp only [Except.ok.injEq] at h
              subst h
              refine ⟨?_, ?_, ?_⟩
              · rw [← hc00]
                rfl
              · dsimp only [specCovUpdate]
                rw [F.mul_neg_eq]
              · rw [← hc11]
                dsimp only [specCovUpdate]
                rw [F.mul_neg_eq, F.neg_mul_eq, F.neg_mul_eq]

/-- C2: whenever a trend-filter step succeeds, the covariance it writes is
produced exactly by the specification's scalar-unrolled formulas: the
clamped predictions `p00_pred`, `p11_pred`, the unclamped
`p01_pred = p01 + p11`, and the Joseph-form update `specCovUpdate`, with
`p00` and `p11` clamped and `p01` left unclamped. -/
theorem C2_trend_covariance_update (r q_level q_trend obs : F)
    (st st2 : TrendState)
    (h : lltStep r q_level q_trend st obs = .ok st2) :
    ∃ p00_pred p11_pred,
      clamp_small_negative (st.p00 + F.fin 2 * st.p01 + st.p11 + q_level)
        = .ok p00_pred ∧
      clamp_small_negative (st.p11 + q_trend) = .ok p11_pred ∧
      clamp_small_negative
          (specCovUpdate r (p00_pred / (p00_pred + r))
            ((st.p01 + st.p11) / (p00_pred + r)) p00_pred (st.p01 + st.p11)
            p11_pred).1
        = .ok st2.p00 ∧
      st2.p01 =
        (specCovUpdate r (p00_pred / (p00_pred + r))
          ((st.p01 + st.p11) / (p00_pred + r)) p00_pred (st.p01 + st.p11)
          p11_pred).2.1 ∧
      clamp_small_negative
          (specCovUpdate r (p00_pred / (p00_pred + r))
            ((st.p01 + st.p11) / (p00_pred + r)) p00_pred (st.p01 + st.p11)
            p11_pred).2.2
        = .ok st2.p11 := by
  rw [lltStep] at h
  cases hc0 : clamp_small_negative (st.p00 + F.fin 2 * st.p01 + st.p11 + q_level) with
  | error e => rw [hc0] at h; simp at h
  | ok p00_pred =>
    rw [hc0] at h
    dsimp only at h
    cases hc1 : clamp_small_negative (st.p11 + q_trend) with
    | error e => rw [hc1] at h; simp at h
    | ok p11_pred =>
      rw [hc1] at h
      dsimp only at h
      split at h
      · simp at h
      · split at h
        · simp at h
        · obtain ⟨g1, g2, g3⟩ := lltGainUpdate_ok_cov h
          exact ⟨p00_pred, p11_pred, rfl, rfl, g1, g2, g3⟩

/-- C2 witness: the covariance equations instantiated on a concrete
successful step (`r = 1`, `q_level = q_trend = 0`, identity prior
covariance, `obs = 1`). -/
theorem C2_trend_covariance_update_witness :
    ∃ p00_pred p11_pred,
      clamp_small_negative (F.fin 1 + F.fin 2 * F.fin 0 + F.fin 1 + F.fin 0)
        = .ok p00_pred ∧
      clamp_small_negative (F.fin 1 + F.fin 0) = .ok p11_pred ∧
      clamp_small_negative
          (specCovUpdate (F.fin 1) (p00_pred / (p00_pred + F.fin 1))
            ((F.fin 0 + F.fin 1) / (p00_pred + F.fin 1)) p00_pred
            (F.fin 0 + F.fin 1) p11_pred).1
        = .ok (F.fin (2 / 3)) ∧
      F.fin (1 / 3) =
        (specCovUpdate (F.fin 1) (p00_pred / (p00_pred + F.fin 1))
          ((F.fin 0 + F.fin 1) / (p00_pred + F.fin 1)) p00_pred
          (F.fin 0 + F.fin 1) p11_pred).2.1 ∧
      clamp_small_negative
          (specCovUpdate (F.fin 1) (p00_pred / (p00_pred + F.fin 1))
            ((F.fin 0 + F.fin 1) / (p00_pred + F.fin 1)) p00_pred
            (F.fin 0 + F.fin 1) p11_pred).2.2
        = .ok (F.fin (2 / 3)) :=
  C2_trend_covariance_update (F.fin 1) (F.fin 0) (F.fin 0) (F.fin 1)
    ⟨F.fin 0, F.fin 0, F.fin 1, F.fin 0, F.fin 1⟩
    ⟨F.fin (2 / 3), F.fin (1 / 3), F.fin (2 / 3), F.fin (1 / 3), F.fin (2 / 3)⟩
    (by
      norm_num [lltStep, lltGainUpdate, clamp_small_negative, F.add_def,
        F.mul_def, F.div_def, F.sub_def, F.neg_def, F.add, F.mul, F.div, F.sub,
        F.neg, F.isFinite, F.bge, F.ble, F.bgt, F.blt, F.abs, TINY_NEG_CLAMP])

/-- `validate_variance` rejects a non-finite value. -/
theorem validate_variance_err_not_finite (name : String) (v : F) (az : Bool)
    (h : v.isFinite = false) :
    validate_variance name v az =
      .error (MathError.InvalidParameter name v "must be finite") := by
  simp [validate_variance, h]

/-- `validate_variance` with `allow_zero` rejects a negative value. -/
theorem validate_variance_err_neg (name : String) (v : F)
    (hf : v.isFinite = true) (h : v.blt (F.fin 0) = true) :
    validate_variance name v true =
      .error (MathError.InvalidParameter name v "must be >= 0") := by
  simp [validate_variance, hf, h]

/-- `validate_variance` without `allow_zero` rejects a non-positive value. -/
theorem validate_variance_err_nonpos (name : String) (v : F)
    (hf : v.isFinite = true) (h : v.ble (F.fin 0) = true) :
    validate_variance name v false =
      .error (MathError.InvalidParameter name v "must be > 0") := by
  simp [validate_variance, hf, h]

/-- `validate_variance` accepts a value inside its domain. -/
theorem validate_variance_accepts (name : String) (v : F) (az : Bool)
    (hf : v.isFinite = true)
    (h1 : az = true → v.blt (F.fin 0) = false)
    (h2 : az = false → v.ble (F.fin 0) = false) :
    validate_variance name v az = .ok () := by
  cases az with
  | true => simp [validate_variance, hf, h1 rfl]
  | false => simp [validate_variance, hf, h2 rfl]

/-- `validate_series` accepts exactly the well-formed inputs. -/
theorem validate_series_accepts {y om ov : List F} (hne : y ≠ [])
    (hall : ∀ ob ∈ y, ob.isFinite = true) (hom : om.length = y.length)
    (hov : ov.length = y.length) : validate_series y om ov = .ok () :=
  (validate_series_ok_iff y om ov).mpr ⟨hne, hall, hom, hov⟩

/-- C4, local-level half: the gate rejects exactly as specified, before any
recursion step runs (an error leaves the buffers untouched), and accepts
everything else.  Stated over `ll_validate`, the validation prefix of
`kalman_local_level_filter_into`. -/
theorem ll_gate_cases (y : List F) (r q init_mean init_var : F) (om ov : List F) :
    (∀ e, ll_validate y r q init_mean init_var om ov = .error e →
      kalman_local_level_filter_into y r q init_mean init_var om ov
        = ((om, ov), .error e)) ∧
    (y = [] → ll_validate y r q init_mean init_var om ov =
      .error (MathError.InsufficientDataAlgo 1 0)) ∧
    (∀ ob ∈ y, ob.isFinite = false → ll_validate y r q init_mean init_var om ov =
      .error (MathError.InvalidData "kalman: all observations must be finite")) ∧
    (y ≠ [] → (∀ ob ∈ y, ob.isFinite = true) →
      (om.length ≠ y.length ∨ ov.length ≠ y.length ∨ init_mean.isFinite = false ∨
        r.isFinite = false ∨ r.ble (F.fin 0) = true ∨ q.isFinite = false ∨
        q.blt (F.fin 0) = true ∨ init_var.isFinite = false ∨
        init_var.blt (F.fin 0) = true) →
      ∃ pname pval c, ll_validate y r q init_mean init_var om ov =
        .error (MathError.InvalidParameter pname pval c)) ∧
    (y ≠ [] → (∀ ob ∈ y, ob.isFinite = true) → om.length = y.length →
      ov.length = y.length → init_mean.isFinite = true → r.isFinite = true →
      r.ble (F.fin 0) = false → q.isFinite = true → q.blt (F.fin 0) = false →
      init_var.isFinite = true → init_var.blt (F.fin 0) = false →
      ll_validate y r q init_mean init_var om ov = .ok ()) := by
  refine ⟨?_, ?_, ?_, ?_, ?_⟩
  · intro e h
    rw [kalman_local_level_filter_into, h]
  · intro h
    subst h
    rfl
  · intro ob hmem hfin
    have hs : validate_series y om ov =
        .error (MathError.InvalidData "kalman: all observations must be finite") := by
      rw [validate_series,
        if_neg (by simp [List.isEmpty_iff, List.ne_nil_of_mem hmem]),
        if_pos (List.any_eq_true.mpr ⟨ob, hmem, by rw [hfin]; rfl⟩)]
    rw [ll_validate, hs]
  · intro hne hall hbad
    have hemp : ¬ y.isEmpty = true := by simp [List.isEmpty_iff, hne]
    have hanyf : ¬ y.any (fun v => !v.isFinite) = true := by
      simp only [List.any_eq_true, not_exists, not_and]
      intro v hv
      rw [hall v hv]
      simp
    by_cases hom : om.length = y.length
    case neg =>
      exact ⟨"out", F.fin 0, "out_mean and out_var must match y length",
        by rw [ll_validate, validate_series, if_neg hemp, if_neg hanyf,
          if_pos (Or.inl hom)]⟩
    case pos =>
    by_cases hov : ov.length = y.length
    case neg =>
      exact ⟨"out", F.fin 0, "out_mean and out_var must match y length",
        by rw [ll_validate, validate_series, if_neg hemp, if_neg hanyf,
          if_pos (Or.inr hov)]⟩
    case pos =>
    have hs : validate_series y om ov = .ok () :=
      validate_series_accepts hne hall hom hov
    cases hm : init_mean.isFinite
    case false =>
      exact ⟨"init_mean", init_mean, "must be finite",
        by rw [ll_validate, hs]; simp [hm]⟩
    case true =>
    cases hrf : r.isFinite
    case false =>
      exact ⟨"r", r, "must be finite",
        by rw [ll_validate, hs]
           simp [hm, validate_variance_err_not_finite "r" r false hrf]⟩
    case true =>
    cases hrle : r.ble (F.fin 0)
    case true =>
      exact ⟨"r", r, "must be > 0",
        by rw [ll_validate, hs]
           simp [hm, validate_variance_err_nonpos "r" r hrf hrle]⟩
    case false =>
    have hr_ok : validate_variance "r" r false = .ok () :=
      validate_variance_accepts "r" r false hrf (by simp) (fun _ => hrle)
    cases hqf : q.isFinite
    case false =>
      exact ⟨"q", q, "must be finite",
        by rw [ll_validate, hs]
           simp [hm, hr_ok, validate_variance_err_not_finite "q" q true hqf]⟩
    case true =>
    cases hqlt : q.blt (F.fin 0)
    case true =>
      exact ⟨"q", q, "must be >= 0",
        by rw [ll_validate, hs]
           simp [hm, hr_ok, validate_variance_err_neg "q" q hqf hqlt]⟩
    case false =>
    have hq_ok : validate_variance "q" q true = .ok () :=
      validate_variance_accepts "q" q true hqf (fun _ => hqlt) (by simp)
    cases hvf : init_var.isFinite
    case false =>
      exact ⟨"init_var", init_var, "must be finite",
        by rw [ll_validate, hs]
           simp [hm, hr_ok, hq_ok,
             validate_variance_err_not_finite "init_var" init_var true hvf]⟩
    case true =>
    cases hvlt : init_var.blt (F.fin 0)
    case true =>
      exact ⟨"init_var", init_var, "must be >= 0",
        by rw [ll_validate, hs]
           simp [hm, hr_ok, hq_ok,
             validate_variance_err_neg "init_var" init_var hvf hvlt]⟩
    case false =>
    exfalso
    rcases hbad with h | h | h | h | h | h | h | h | h
    · exact h hom
    · exact h hov
    · rw [hm] at h; exact Bool.true_eq_false.mp h
    · rw [hrf] at h; exact Bool.true_eq_false.mp h
    · rw [hrle] at h; exact Bool.false_eq_true.mp h
    · rw [hqf] at h; exact Bool.true_eq_false.mp h
    · rw [hqlt] at h; exact Bool.false_eq_true.mp h
    · rw [hvf] at h; exact Bool.true_eq_false.mp h
    · rw [hvlt] at h; exact Bool.false_eq_true.mp h
  · intro hne hall hom hov hm hrf hrle hqf hqlt hvf hvlt
    rw [ll_validate, validate_series_accepts hne hall hom hov]
    simp [hm,
      validate_variance_accepts "r" r false hrf (by simp) (fun _ => hrle),
      validate_variance_accepts "q" q true hqf (fun _ => hqlt) (by simp),
      validate_variance_accepts "init_var" init_var true hvf (fun _ => hvlt)
        (by simp)]

/-- C4, trend half: the trend engine's inline validation rejects exactly as
specified before the recursion starts, and accepts everything else. -/
theorem llt_gate_cases (y : List F)
    (r q_level q_trend init_level init_trend init_var_level init_var_trend : F)
    (bl bt bvl bvt : List F) :
    (∀ e, llt_validate y r q_level q_trend init_level init_trend init_var_level
        init_var_trend bl bt bvl bvt = .error e →
      kalman_local_linear_trend_filter_into y r q_level q_trend init_level
        init_trend init_var_level init_var_trend bl bt bvl bvt
        = ((bl, bt, bvl, bvt), .error e)) ∧
    (y = [] → llt_validate y r q_level q_trend init_level init_trend
      init_var_level init_var_trend bl bt bvl bvt =
      .error (MathError.InsufficientDataAlgo 1 0)) ∧
    (∀ ob ∈ y, ob.isFinite = false →
      llt_validate y r q_level q_trend init_level init_trend init_var_level
        init_var_trend bl bt bvl bvt =
      .error (MathError.InvalidData "kalman: all observations must be finite")) ∧
    (y ≠ [] → (∀ ob ∈ y, ob.isFinite = true) →
      (bl.length ≠ y.length ∨ bt.length ≠ y.length ∨ bvl.length ≠ y.length ∨
        bvt.length ≠ y.length ∨ init_level.isFinite = false ∨
        init_trend.isFinite = false ∨ r.isFinite = false ∨
        r.ble (F.fin 0) = true ∨ q_level.isFinite = false ∨
        q_level.blt (F.fin 0) = true ∨ q_trend.isFinite = false ∨
        q_trend.blt (F.fin 0) = true ∨ init_var_level.isFinite = false ∨
        init_var_level.blt (F.fin 0) = true ∨ init_var_trend.isFinite = false ∨
        init_var_trend.blt (F.fin 0) = true) →
      ∃ pname pval c, llt_validate y r q_level q_trend init_level init_trend
        init_var_level init_var_trend bl bt bvl bvt =
        .error (MathError.InvalidParameter pname pval c)) ∧
    (y ≠ [] → (∀ ob ∈ y, ob.isFinite = true) → bl.length = y.length →
      bt.length = y.length → bvl.length = y.length → bvt.length = y.length →
      init_level.isFinite = true → init_trend.isFinite = true →
      r.isFinite = true → r.ble (F.fin 0) = false →
      q_level.isFinite = true → q_level.blt (F.fin 0) = false →
      q_trend.isFinite = true → q_trend.blt (F.fin 0) = false →
      init_var_level.isFinite = true → init_var_level.blt (F.fin 0) = false →
      init_var_trend.isFinite = true → init_var_trend.blt (F.fin 0) = false →
      llt_validate y r q_level q_trend init_level init_trend init_var_level
        init_var_trend bl bt bvl bvt = .ok ()) := by
  refine ⟨?_, ?_, ?_, ?_, ?_⟩
  · intro e h
    rw [kalman_local_linear_trend_filter_into, h]
  · intro h
    subst h
    rfl
  · intro ob hmem hfin
    rw [llt_validate,
      if_neg (by simp [List.isEmpty_iff, List.ne_nil_of_mem hmem]),
      if_pos (List.any_eq_true.mpr ⟨ob, hmem, by rw [hfin]; rfl⟩)]
  · intro hne hall hbad
    have hemp : ¬ y.isEmpty = true := by simp [List.isEmpty_iff, hne]
    have hanyf : ¬ y.any (fun v => !v.isFinite) = true := by
      simp only [List.any_eq_true, not_exists, not_and]
      intro v hv
      rw [hall v hv]
      simp
    by_cases hlen : bl.length ≠ y.length ∨ bt.length ≠ y.length ∨
        bvl.length ≠ y.length ∨ bvt.length ≠ y.length
    case pos =>
      exact ⟨"out", F.fin 0, "all output slices must match y length",
        by rw [llt_validate, if_neg hemp, if_neg hanyf, if_pos hlen]⟩
    case neg =>
    push_neg at hlen
    obtain ⟨hbl, hbt, hbvl, hbvt⟩ := hlen
    by_cases hinit : (!init_level.isFinite || !init_trend.isFinite) = true
    case pos =>
      exact ⟨"init_state", F.fin 0, "init_level and init_trend must be finite",
        by rw [llt_validate, if_neg hemp, if_neg hanyf,
          if_neg (by push_neg; exact ⟨hbl, hbt, hbvl, hbvt⟩), if_pos hinit]⟩
    case neg =>
    have hlv : init_level.isFinite = true := by
      revert hinit; cases init_level.isFinite <;> simp
    have htv : init_trend.isFinite = true := by
      revert hinit; cases init_trend.isFinite <;> simp
    have hpre2 :
        (llt_validate y r q_level q_trend init_level init_trend init_var_level
          init_var_trend bl bt bvl bvt) =
        (match validate_variance "r" r false with
          | .error e => .error e
          | .ok _ =>
            match validate_variance "q_level" q_level true with
            | .error e => .error e
            | .ok _ =>
              match validate_variance "q_trend" q_trend true with
              | .error e => .error e
              | .ok _ =>
                match validate_variance "init_var_level" init_var_level true with
                | .error e => .error e
                | .ok _ =>
                  validate_variance "init_var_trend" init_var_trend true) := by
      rw [llt_validate, if_neg hemp, if_neg hanyf,
        if_neg (by push_neg; exact ⟨hbl, hbt, hbvl, hbvt⟩), if_neg hinit]
    cases hrf : r.isFinite
    case false =>
      exact ⟨"r", r, "must be finite",
        by rw [hpre2, validate_variance_err_not_finite "r" r false hrf]⟩
    case true =>
    cases hrle : r.ble (F.fin 0)
    case true =>
      exact ⟨"r", r, "must be > 0",
        by rw [hpre2, validate_variance_err_nonpos "r" r hrf hrle]⟩
    case false =>
    have hr_ok : validate_variance "r" r false = .ok () :=
      validate_variance_accepts "r" r false hrf (by simp) (fun _ => hrle)
    cases hq1f : q_level.isFinite
    case false =>
      exact ⟨"q_level", q_level, "must be finite",
        by rw [hpre2, hr_ok,
          validate_variance_err_not_finite "q_level" q_level true hq1f]⟩
    case true =>
    cases hq1lt : q_level.blt (F.fin 0)
    case true =>
      exact ⟨"q_level", q_level, "must be >= 0",
        by rw [hpre2, hr_ok,
          validate_variance_err_neg "q_level" q_level hq1f hq1lt]⟩
    case false =>
    have hq1_ok : validate_variance "q_level" q_level true = .ok () :=
      validate_variance_accepts "q_level" q_level true hq1f (fun _ => hq1lt)
        (by simp)
    cases hq2f : q_trend.isFinite
    case false =>
      exact ⟨"q_trend", q_trend, "must be finite",
        by rw [hpre2, hr_ok, hq1_ok,
          validate_variance_err_not_finite "q_trend" q_trend true hq2f]⟩
    case true =>
    cases hq2lt : q_trend.blt (F.fin 0)
    case true =>
      exact ⟨"q_trend", q_trend, "must be >= 0",
        by rw [hpre2, hr_ok, hq1_ok,
          validate_variance_err_neg "q_trend" q_trend hq2f hq2lt]⟩
    case false =>
    have hq2_ok : validate_variance "q_trend" q_trend true = .ok () :=
      validate_variance_accepts "q_trend" q_trend true hq2f (fun _ => hq2lt)
        (by simp)
    cases hv1f : init_var_level.isFinite
    case false =>
      exact ⟨"init_var_level", init_var_level, "must be finite",
        by rw [hpre2, hr_ok, hq1_ok, hq2_ok,
          validate_variance_err_not_finite "init_var_level" init_var_level true
            hv1f]⟩
    case true =>
    cases hv1lt : init_var_level.blt (F.fin 0)
    case true =>
      exact ⟨"init_var_level", init_var_level, "must be >= 0",
        by rw [hpre2, hr_ok, hq1_ok, hq2_ok,
          validate_variance_err_neg "init_var_level" init_var_level hv1f hv1lt]⟩
    case false =>
    have hv1_ok : validate_variance "init_var_level" init_var_level true = .ok () :=
      validate_variance_accepts "init_var_level" init_var_level true hv1f
        (fun _ => hv1lt) (by simp)
    cases hv2f : init_var_trend.isFinite
    case false =>
      exact ⟨"init_var_trend", init_var_trend, "must be finite",
        by rw [hpre2, hr_ok, hq1_ok, hq2_ok, hv1_ok,
          validate_variance_err_not_finite "init_var_trend" init_var_trend true
            hv2f]⟩
    case true =>
    cases hv2lt : init_var_trend.blt (F.fin 0)
    case true =>
      exact ⟨"init_var_trend", init_var_trend, "must be >= 0",
        by rw [hpre2, hr_ok, hq1_ok, hq2_ok, hv1_ok,
          validate_variance_err_neg "init_var_trend" init_var_trend hv2f hv2lt]⟩
    case false =>
    exfalso
    rcases hbad with h | h | h | h | h | h | h | h | h | h | h | h | h | h | h | h
    · exact h hbl
    · exact h hbt
    · exact h hbvl
    · exact h hbvt
    · rw [hlv] at h; exact Bool.true_eq_false.mp h
    · rw [htv] at h; exact Bool.true_eq_false.mp h
    · rw [hrf] at h; exact Bool.true_eq_false.mp h
    · rw [hrle] at h; exact Bool.false_eq_true.mp h
    · rw [hq1f] at h; exact Bool.true_eq_false.mp h
    · rw [hq1lt] at h; exact Bool.false_eq_true.mp h
    · rw [hq2f] at h; exact Bool.true_eq_false.mp h
    · rw [hq2lt] at h; exact Bool.false_eq_true.mp h
    · rw [hv1f] at h; exact Bool.true_eq_false.mp h
    · rw [hv1lt] at h; exact Bool.false_eq_true.mp h
    · rw [hv2f] at h; exact Bool.true_eq_false.mp h
    · rw [hv2lt] at h; exact Bool.false_eq_true.mp h
  · intro hne hall hbl hbt hbvl hbvt hlv htv hrf hrle hq1f hq1lt hq2f hq2lt
      hv1f hv1lt hv2f hv2lt
    rw [llt_validate, if_neg (by simp [List.isEmpty_iff, hne]),
      if_neg (by
        simp only [List.any_eq_true, not_exists, not_and]
        intro v hv
        rw [hall v hv]
        simp),
      if_neg (by push_neg; exact ⟨hbl, hbt, hbvl, hbvt⟩),
      if_neg (by simp [hlv, htv]),
      validate_variance_accepts "r" r false hrf (by simp) (fun _ => hrle),
      validate_variance_accepts "q_level" q_level true hq1f (fun _ => hq1lt)
        (by simp),
      validate_variance_accepts "q_trend" q_trend true hq2f (fun _ => hq2lt)
        (by simp),
      validate_variance_accepts "init_var_level" init_var_level true hv1f
        (fun _ => hv1lt) (by simp),
      validate_variance_accepts "init_var_trend" init_var_trend true hv2f
        (fun _ => hv2lt) (by simp)]

/-- C4: the validation gate of both filters rejects exactly as specified and
before any recursion step runs (a gate error returns the output buffers
unchanged): an empty observation sequence gives `InsufficientDataAlgo 1 0`; a
non-finite observation gives `InvalidData`; a buffer-length mismatch, a
non-finite initial mean (level/trend), `r` non-finite or `<= 0`, a process
noise non-finite or `< 0`, or an initial variance non-finite or `< 0` give
`InvalidParameter`; and inputs meeting every condition pass the gate (zero is
accepted for the process noises and initial variances, rejected for `r`). -/
theorem C4_validation_gate (y : List F) (r q init_mean init_var : F)
    (om ov : List F) (y2 : List F)
    (r2 q_level q_trend init_level init_trend init_var_level init_var_trend : F)
    (bl bt bvl bvt : List F) :
    ((∀ e, ll_validate y r q init_mean init_var om ov = .error e →
      kalman_local_level_filter_into y r q init_mean init_var om ov
        = ((om, ov), .error e)) ∧
    (y = [] → ll_validate y r q init_mean init_var om ov =
      .error (MathError.InsufficientDataAlgo 1 0)) ∧
    (∀ ob ∈ y, ob.isFinite = false → ll_validate y r q init_mean init_var om ov =
      .error (MathError.InvalidData "kalman: all observations must be finite")) ∧
    (y ≠ [] → (∀ ob ∈ y, ob.isFinite = true) →
      (om.length ≠ y.length ∨ ov.length ≠ y.length ∨ init_mean.isFinite = false ∨
        r.isFinite = false ∨ r.ble (F.fin 0) = true ∨ q.isFinite = false ∨
        q.blt (F.fin 0) = true ∨ init_var.isFinite = false ∨
        init_var.blt (F.fin 0) = true) →
      ∃ pname pval c, ll_validate y r q init_mean init_var om ov =
        .error (MathError.InvalidParameter pname pval c)) ∧
    (y ≠ [] → (∀ ob ∈ y, ob.isFinite = true) → om.length = y.length →
      ov.length = y.length → init_mean.isFinite = true → r.isFinite = true →
      r.ble (F.fin 0) = false → q.isFinite = true → q.blt (F.fin 0) = false →
      init_var.isFinite = true → init_var.blt (F.fin 0) = false →
      ll_validate y r q init_mean init_var om ov = .ok ())) ∧
    ((∀ e, llt_validate y2 r2 q_level q_trend init_level init_trend
        init_var_level init_var_trend bl bt bvl bvt = .error e →
      kalman_local_linear_trend_filter_into y2 r2 q_level q_trend init_level
        init_trend init_var_level init_var_trend bl bt bvl bvt
        = ((bl, bt, bvl, bvt), .error e)) ∧
    (y2 = [] → llt_validate y2 r2 q_level q_trend init_level init_trend
      init_var_level init_var_trend bl bt bvl bvt =
      .error (MathError.InsufficientDataAlgo 1 0)) ∧
    (∀ ob ∈ y2, ob.isFinite = false →
      llt_validate y2 r2 q_level q_trend init_level init_trend init_var_level
        init_var_trend bl bt bvl bvt =
      .error (MathError.InvalidData "kalman: all observations must be finite")) ∧
    (y2 ≠ [] → (∀ ob ∈ y2, ob.isFinite = true) →
      (bl.length ≠ y2.length ∨ bt.length ≠ y2.length ∨ bvl.length ≠ y2.length ∨
        bvt.length ≠ y2.length ∨ init_level.isFinite = false ∨
        init_trend.isFinite = false ∨ r2.isFinite = false ∨
        r2.ble (F.fin 0) = true ∨ q_level.isFinite = false ∨
        q_level.blt (F.fin 0) = true ∨ q_trend.isFinite = false ∨
        q_trend.blt (F.fin 0) = true ∨ init_var_level.isFinite = false ∨
        init_var_level.blt (F.fin 0) = true ∨ init_var_trend.isFinite = false ∨
        init_var_trend.blt (F.fin 0) = true) →
      ∃ pname pval c, llt_validate y2 r2 q_level q_trend init_level init_trend
        init_var_level init_var_trend bl bt bvl bvt =
        .error (MathError.InvalidParameter pname pval c)) ∧
    (y2 ≠ [] → (∀ ob ∈ y2, ob.isFinite = true) → bl.length = y2.length →
      bt.length = y2.length → bvl.length = y2.length → bvt.length = y2.length →
      init_level.isFinite = true → init_trend.isFinite = true →
      r2.isFinite = true → r2.ble (F.fin 0) = false →
      q_level.isFinite = true → q_level.blt (F.fin 0) = false →
      q_trend.isFinite = true → q_trend.blt (F.fin 0) = false →
      init_var_level.isFinite = true → init_var_level.blt (F.fin 0) = false →
      init_var_trend.isFinite = true → init_var_trend.blt (F.fin 0) = false →
      llt_validate y2 r2 q_level q_trend init_level init_trend init_var_level
        init_var_trend bl bt bvl bvt = .ok ())) :=
  ⟨ll_gate_cases y r q init_mean init_var om ov,
   llt_gate_cases y2 r2 q_level q_trend init_level init_trend init_var_level
     init_var_trend bl bt bvl bvt⟩

/-- C4 witness: concrete instances of the gate's clauses — the empty series
is rejected with `InsufficientDataAlgo`, `r = 0` is rejected with
`InvalidParameter`, and valid inputs with `q = 0` and zero initial variances
pass both gates. -/
theorem C4_validation_gate_witness :
    ll_validate [] (F.fin 1) (F.fin 0) (F.fin 0) (F.fin 1) [] [] =
      .error (MathError.InsufficientDataAlgo 1 0) ∧
    (∃ pname pval c,
      ll_validate [F.fin 1] (F.fin 0) (F.fin 0) (F.fin 0) (F.fin 1)
        [F.fin 0] [F.fin 0] = .error (MathError.InvalidParameter pname pval c)) ∧
    ll_validate [F.fin 1] (F.fin 1) (F.fin 0) (F.fin 0) (F.fin 0)
      [F.fin 0] [F.fin 0] = .ok () ∧
    llt_validate [F.fin 1] (F.fin 1) (F.fin 0) (F.fin 0) (F.fin 0) (F.fin 0)
      (F.fin 0) (F.fin 0) [F.fin 0] [F.fin 0] [F.fin 0] [F.fin 0] = .ok () :=
  ⟨(C4_validation_gate [] (F.fin 1) (F.fin 0) (F.fin 0) (F.fin 1) [] []
      [] (F.fin 1) (F.fin 0) (F.fin 0) (F.fin 0) (F.fin 0) (F.fin 0) (F.fin 0)
      [] [] [] []).1.2.1 rfl,
   (C4_validation_gate [F.fin 1] (F.fin 0) (F.fin 0) (F.fin 0) (F.fin 1)
      [F.fin 0] [F.fin 0] [] (F.fin 1) (F.fin 0) (F.fin 0) (F.fin 0) (F.fin 0)
      (F.fin 0) (F.fin 0) [] [] [] []).1.2.2.2.1
      (by simp)
      (by
        intro ob hob
        rw [List.mem_singleton] at hob
        subst hob
        rfl)
      (Or.inr (Or.inr (Or.inr (Or.inr (Or.inl (by norm_num [F.ble])))))),
   (C4_validation_gate [F.fin 1] (F.fin 1) (F.fin 0) (F.fin 0) (F.fin 0)
      [F.fin 0] [F.fin 0] [] (F.fin 1) (F.fin 0) (F.fin 0) (F.fin 0) (F.fin 0)
      (F.fin 0) (F.fin 0) [] [] [] []).1.2.2.2.2
      (by simp)
      (by
        intro ob hob
        rw [List.mem_singleton] at hob
        subst hob
        rfl)
      rfl rfl rfl rfl (by norm_num [F.ble]) rfl (by norm_num [F.blt]) rfl
      (by norm_num [F.blt]),
   (C4_validation_gate [] (F.fin 1) (F.fin 0) (F.fin 0) (F.fin 1) [] []
      [F.fin 1] (F.fin 1) (F.fin 0) (F.fin 0) (F.fin 0) (F.fin 0) (F.fin 0)
      (F.fin 0) [F.fin 0] [F.fin 0] [F.fin 0] [F.fin 0]).2.2.2.2.2
      (by simp)
      (by
        intro ob hob
        rw [List.mem_singleton] at hob
        subst hob
        rfl)
      rfl rfl rfl rfl rfl rfl rfl (by norm_num [F.ble]) rfl
      (by norm_num [F.blt]) rfl (by norm_num [F.blt]) rfl (by norm_num [F.blt])
      rfl (by norm_num [F.blt])⟩

/-- Writing a prefix of values at positions `0, 1, ...` replaces the first
`vs.length` elements and leaves the tail untouched. -/
theorem writeSeq_zero_append (vs b : List F) (h : vs.length ≤ b.length) :
    writeSeq b 0 vs = vs ++ b.drop vs.length := by
  apply List.ext_getElem?
  intro i
  rw [writeSeq_getElem?]
  by_cases hi : i < vs.length
  · rw [if_pos ⟨Nat.zero_le i, by omega, by omega⟩,
      List.getElem?_append_left hi]
    simp
  · rw [if_neg (by omega), List.getElem?_append_right (by omega),
      List.getElem?_drop]
    congr 1
    omega

/-- `lltLoop` is `lltRun` plus consecutive buffer writes. -/
theorem lltLoop_eq_run (r q_level q_trend : F) : ∀ (ys : List F) (t : Nat)
    (st : TrendState) (bl bt bvl bvt : List F),
    lltLoop r q_level q_trend ys t st bl bt bvl bvt =
      ((writeSeq bl t (lltRun r q_level q_trend st ys).1.1,
        writeSeq bt t (lltRun r q_level q_trend st ys).1.2.1,
        writeSeq bvl t (lltRun r q_level q_trend st ys).1.2.2.1,
        writeSeq bvt t (lltRun r q_level q_trend st ys).1.2.2.2),
        (lltRun r q_level q_trend st ys).2) := by
  intro ys
  induction ys with
  | nil => intro t st bl bt bvl bvt; rfl
  | cons obs rest ih =>
    intro t st bl bt bvl bvt
    rw [lltLoop, lltRun]
    cases hstep : lltStep r q_level q_trend st obs with
    | error e => rfl
    | ok st2 =>
      dsimp only
      rw [ih]
      rfl

/-- Bookkeeping facts about `lltRun`: the four collected lists share one
length, at most one entry per observation, and the run succeeds exactly when
every observation produced an entry. -/
theorem lltRun_lengths (r q_level q_trend : F) : ∀ (ys : List F) (st : TrendState),
    (lltRun r q_level q_trend st ys).1.1.length =
      (lltRun r q_level q_trend st ys).1.2.1.length ∧
    (lltRun r q_level q_trend st ys).1.1.length =
      (lltRun r q_level q_trend st ys).1.2.2.1.length ∧
    (lltRun r q_level q_trend st ys).1.1.length =
      (lltRun r q_level q_trend st ys).1.2.2.2.length ∧
    (lltRun r q_level q_trend st ys).1.1.length ≤ ys.length ∧
    ((lltRun r q_level q_trend st ys).2 = .ok () ↔
      (lltRun r q_level q_trend st ys).1.1.length = ys.length) := by
  intro ys
  induction ys with
  | nil => intro st; simp [lltRun]
  | cons obs rest ih =>
    intro st
    rw [lltRun]
    cases hstep : lltStep r q_level q_trend st obs with
    | error e => simp
    | ok st2 =>
      obtain ⟨h1, h2, h3, h4, h5⟩ := ih st2
      simp only [List.length_cons]
      refine ⟨by rw [h1], by rw [h2], by rw [h3], by omega, ?_⟩
      rw [h5]
      omega

/-- A successful trend validation forces all four buffers to have the length
of the observation list. -/
theorem llt_validate_ok_lengths {y : List F}
    {r q_level q_trend init_level init_trend init_var_level init_var_trend : F}
    {bl bt bvl bvt : List F}
    (h : llt_validate y r q_level q_trend init_level init_trend init_var_level
      init_var_trend bl bt bvl bvt = .ok ()) :
    bl.length = y.length ∧ bt.length = y.length ∧ bvl.length = y.length ∧
      bvt.length = y.length := by
  rw [llt_validate] at h
  split_ifs at h with h1 h2 h3 h4
  · push_neg at h3
    exact ⟨h3.1, h3.2.1, h3.2.2.1, h3.2.2.2⟩

/-- C7: for both in-place filters, a validation failure returns the buffers
exactly as supplied, and otherwise the call writes the recursion's outputs at
consecutive indices from `0` and leaves every later index untouched — on a
mid-recursion error the prefix written so far (which for the level engine is
exactly the specification recursion on the consumed prefix) remains, with the
run complete iff the result is success. -/
theorem C7_partial_write_frame (y : List F) (r q init_mean init_var : F)
    (om ov : List F) (y2 : List F)
    (r2 q_level q_trend init_level init_trend init_var_level init_var_trend : F)
    (bl bt bvl bvt : List F) :
    ((∀ e, ll_validate y r q init_mean init_var om ov = .error e →
      kalman_local_level_filter_into y r q init_mean init_var om ov
        = ((om, ov), .error e)) ∧
     (ll_validate y r q init_mean init_var om ov = .ok () →
      ∃ ms vs st, llRun r q init_mean init_var y = ((ms, vs), st) ∧
        specLLFilter r q init_mean init_var (y.take ms.length) = .ok (ms, vs) ∧
        kalman_local_level_filter_into y r q init_mean init_var om ov =
          ((ms ++ om.drop ms.length, vs ++ ov.drop vs.length), st) ∧
        (st = .ok () ↔ ms.length = y.length))) ∧
    ((∀ e, llt_validate y2 r2 q_level q_trend init_level init_trend
        init_var_level init_var_trend bl bt bvl bvt = .error e →
      kalman_local_linear_trend_filter_into y2 r2 q_level q_trend init_level
        init_trend init_var_level init_var_trend bl bt bvl bvt
        = ((bl, bt, bvl, bvt), .error e)) ∧
     (llt_validate y2 r2 q_level q_trend init_level init_trend init_var_level
        init_var_trend bl bt bvl bvt = .ok () →
      ∃ ls ts vls vts st,
        lltRun r2 q_level q_trend
          ⟨init_level, init_trend, init_var_level, F.fin 0, init_var_trend⟩ y2 =
          ((ls, ts, vls, vts), st) ∧
        kalman_local_linear_trend_filter_into y2 r2 q_level q_trend init_level
          init_trend init_var_level init_var_trend bl bt bvl bvt =
          ((ls ++ bl.drop ls.length, ts ++ bt.drop ts.length,
            vls ++ bvl.drop vls.length, vts ++ bvt.drop vts.length), st) ∧
        (st = .ok () ↔ ls.length = y2.length))) := by
  constructor
  · constructor
    · intro e h
      rw [kalman_local_level_filter_into, h]
    · intro h
      obtain ⟨hom, hov⟩ := ll_validate_ok_lengths h
      obtain ⟨hlen12, hle, hiff⟩ := llRun_lengths r q y init_mean init_var
      refine ⟨(llRun r q init_mean init_var y).1.1,
        (llRun r q init_mean init_var y).1.2,
        (llRun r q init_mean init_var y).2, rfl,
        llRun_take_spec r q y init_mean init_var, ?_, hiff⟩
      rw [kalman_local_level_filter_into, h]
      dsimp only
      rw [llLoop_eq_run,
        writeSeq_zero_append _ _ (by omega),
        writeSeq_zero_append _ _ (by omega)]
  · constructor
    · intro e h
      rw [kalman_local_linear_trend_filter_into, h]
    · intro h
      obtain ⟨hbl, hbt, hbvl, hbvt⟩ := llt_validate_ok_lengths h
      obtain ⟨h1, h2, h3, h4, h5⟩ := lltRun_lengths r2 q_level q_trend y2
        ⟨init_level, init_trend, init_var_level, F.fin 0, init_var_trend⟩
      refine ⟨_, _, _, _, _, rfl, ?_, h5⟩
      rw [kalman_local_linear_trend_filter_into, h]
      dsimp only
      rw [lltLoop_eq_run,
        writeSeq_zero_append _ _ (by omega),
        writeSeq_zero_append _ _ (by omega),
        writeSeq_zero_append _ _ (by omega),
        writeSeq_zero_append _ _ (by omega)]

/-- C7 witness: both clauses exercised — a validation failure (`r = 0`)
leaves the buffers untouched, and a valid call satisfies the frame
characterization. -/
theorem C7_partial_write_frame_witness :
    kalman_local_level_filter_into [F.fin 1] (F.fin 0) (F.fin 0) (F.fin 0)
        (F.fin 1) [F.fin 7] [F.fin 8] = (([F.fin 7], [F.fin 8]),
        .error (MathError.InvalidParameter "r" (F.fin 0) "must be > 0")) ∧
    (∃ ms vs st, llRun (F.fin 1) (F.fin 0) (F.fin 0) (F.fin 1) [F.fin 1] =
        ((ms, vs), st) ∧
      specLLFilter (F.fin 1) (F.fin 0) (F.fin 0) (F.fin 1)
        (List.take ms.length [F.fin 1]) = .ok (ms, vs) ∧
      kalman_local_level_filter_into [F.fin 1] (F.fin 1) (F.fin 0) (F.fin 0)
        (F.fin 1) [F.fin 7] [F.fin 8] =
        ((ms ++ List.drop ms.length [F.fin 7], vs ++ List.drop vs.length [F.fin 8]),
          st) ∧
      (st = .ok () ↔ ms.length = 1)) :=
  ⟨(C7_partial_write_frame [F.fin 1] (F.fin 0) (F.fin 0) (F.fin 0) (F.fin 1)
      [F.fin 7] [F.fin 8] [] (F.fin 1) (F.fin 0) (F.fin 0) (F.fin 0) (F.fin 0)
      (F.fin 0) (F.fin 0) [] [] [] []).1.1 _
      (by
        norm_num [ll_validate, validate_series, validate_variance, F.isFinite,
          F.ble, F.blt]),
   (C7_partial_write_frame [F.fin 1] (F.fin 1) (F.fin 0) (F.fin 0) (F.fin 1)
      [F.fin 7] [F.fin 8] [] (F.fin 1) (F.fin 0) (F.fin 0) (F.fin 0) (F.fin 0)
      (F.fin 0) (F.fin 0) [] [] [] []).1.2
      (by
        norm_num [ll_validate, validate_series, validate_variance, F.isFinite,
          F.ble, F.blt])⟩

end Kalman
